import Mathlib

/-!
Verification of the bit-survey-app submission gate, recorder, auth,
catalog and reporting logic, shallowly embedded from the Node/Express
source (`server` files).  Machine integers are modelled as `Nat`/`Int`,
timestamps as epoch milliseconds, the MySQL tables as Lean lists, and the
in-memory rate-limit `Map` as an association list with JavaScript's
in-place object-mutation semantics made explicit.
-/

namespace BitSurvey

/-! ## Rate-limit store (source: `rateLimitStore`, `RATE_LIMIT_WINDOW`, `RATE_LIMIT_MAX`) -/

/-- One value object of `rateLimitStore`: fields `count` and `resetTime`. -/
structure IpData where
  count : Nat
  resetTime : Nat
deriving Repr, DecidableEq

/-- `RATE_LIMIT_WINDOW = 10 * 60 * 1000` (10 minutes in ms). -/
def RATE_LIMIT_WINDOW : Nat := 10 * 60 * 1000

/-- Max accepted submissions per window (source constant 5). -/
def rateLimitMax : Nat := 5

/-- The in-memory `Map` keyed by client IP, as an association list. -/
abbrev RateStore := List (String × IpData)

/-- `rateLimitStore.get(ip)`. -/
def storeGet (s : RateStore) (ip : String) : Option IpData :=
  match s.find? (fun p => p.1 == ip) with
  | some p => some p.2
  | none => none

/-- `rateLimitStore.set(ip, d)`: replaces an existing entry or appends. -/
def storeSet (s : RateStore) (ip : String) (d : IpData) : RateStore :=
  match s with
  | [] => [(ip, d)]
  | (k, v) :: rest => if k == ip then (k, d) :: rest else (k, v) :: storeSet rest ip d

/-! ## String containment (JS `String.prototype.includes`) -/

/-- `isStartOf pat s`: `pat` is a prefix of `s` (character lists). -/
def isStartOf : List Char → List Char → Bool
  | [], _ => true
  | _ :: _, [] => false
  | p :: ps, c :: cs => p == c && isStartOf ps cs

/-- `charsContain s pat`: `pat` occurs as a contiguous run inside `s`. -/
def charsContain : List Char → List Char → Bool
  | [], pat => isStartOf pat []
  | c :: t, pat => isStartOf pat (c :: t) || charsContain t pat

/-- JS `s.includes(pat)`. -/
def strContains (s pat : String) : Bool :=
  charsContain s.toList pat.toList

/-! ## Submission gate (source: `sessionMiddleware`) -/

/-- The decoded survey-session JWT cookie: signature validity against
`JWT_SECRET`, the `exp` claim (epoch ms), and the embedded `type` claim. -/
structure SessionToken where
  validSignature : Bool
  expiresAt : Nat
  claimType : String
deriving Repr, DecidableEq

/-- The slice of an incoming request read by the gate: client IP from
`getClientIp`, the `Origin`/`Referer`/`Host` headers, and the parsed
`survey_session` cookie (absent or a decoded token). -/
structure GateRequest where
  ip : String
  origin : Option String
  referer : Option String
  host : String
  cookie : Option SessionToken
deriving Repr, DecidableEq

/-- The gate's observable outcome: HTTP status, whether
`res.clearCookie('survey_session')` ran, error message, the 429
`retryAfter` field, and whether `next()` ran (request reaches the route). -/
structure GateResponse where
  status : Nat
  clearsCookie : Bool
  errMsg : String
  retryAfter : Option Nat
  proceeds : Bool
deriving Repr, DecidableEq

/-- `jwt.verify(token, JWT_SECRET)` succeeds: valid signature and not past
the `exp` claim. -/
def jwtVerifyOk (tok : SessionToken) (now : Nat) : Bool :=
  tok.validSignature && decide (now < tok.expiresAt)

/-- Source check
`origin && (origin.includes(host) || origin.includes('localhost') || origin.includes('127.0.0.1'))`;
the `origin &&` guard makes the empty string falsy, hence the `h != ""`. -/
def headerValid (hdr : Option String) (host : String) : Bool :=
  match hdr with
  | none => false
  | some h =>
    (h != "") && (strContains h host || strContains h "localhost" || strContains h "127.0.0.1")

/-- The 429 body text: source interpolates `Math.ceil(retryAfter / 60)`. -/
def rateLimitMsg (retryAfter : Nat) : String :=
  "Terlalu banyak request. Coba lagi dalam " ++ toString ((retryAfter + 59) / 60) ++ " menit."

/-- The response produced when all three checks pass (`next()` runs). -/
def passResp : GateResponse :=
  { status := 200, clearsCookie := false, errMsg := "", retryAfter := none, proceeds := true }

/-- The 429 response for `remaining` ms left in the window:
`retryAfter = Math.ceil(remaining / 1000)`. -/
def rateLimitedResp (remaining : Nat) : GateResponse :=
  { status := 429, clearsCookie := false,
    errMsg := rateLimitMsg ((remaining + 999) / 1000),
    retryAfter := some ((remaining + 999) / 1000), proceeds := false }

/-- The 403 response of the Origin/Referer check. -/
def forbiddenResp : GateResponse :=
  { status := 403, clearsCookie := false,
    errMsg := "Request harus dari browser. Akses API langsung tidak diizinkan.",
    retryAfter := none, proceeds := false }

/-- The 401 response when the `survey_session` cookie is absent
(note: the source does not clear the cookie on this path). -/
def noCookieResp : GateResponse :=
  { status := 401, clearsCookie := false,
    errMsg := "Session tidak valid. Silakan mulai survey dari awal.",
    retryAfter := none, proceeds := false }

/-- The 401 response when a presented token fails verification: the source
clears the cookie in the catch block. -/
def badTokenResp : GateResponse :=
  { status := 401, clearsCookie := true,
    errMsg := "Session expired. Silakan mulai survey dari awal.",
    retryAfter := none, proceeds := false }

/-- The `ipData` value the middleware works with after the lazy-reset step:
`rateLimitStore.get(ip) || defaults`, then `count = 0` and a fresh
`resetTime` when `now > ipData.resetTime`. -/
def lazyData (store : RateStore) (ip : String) (now : Nat) : IpData :=
  match storeGet store ip with
  | none => { count := 0, resetTime := now + RATE_LIMIT_WINDOW }
  | some d =>
    if d.resetTime < now then { count := 0, resetTime := now + RATE_LIMIT_WINDOW } else d

/-- The rate-limit store as it stands after the lazy-reset step.  JS mutates
the stored `ipData` object in place, so an expired window of an *existing*
entry is reset in the store even if the request is then rejected; a fresh
object for an unknown IP is not stored until `rateLimitStore.set` runs on
the full-pass path. -/
def gateStore1 (store : RateStore) (ip : String) (now : Nat) : RateStore :=
  match storeGet store ip with
  | none => store
  | some d =>
    if d.resetTime < now then
      storeSet store ip { count := 0, resetTime := now + RATE_LIMIT_WINDOW }
    else store

/-- `sessionMiddleware`, translated check for check: rate limit, then
Origin/Referer, then the `survey_session` cookie; the count is incremented
and written back only after all checks pass. -/
def sessionMiddleware (store : RateStore) (req : GateRequest) (now : Nat) :
    GateResponse × RateStore :=
  let ipData := lazyData store req.ip now
  let store1 := gateStore1 store req.ip now
  if rateLimitMax ≤ ipData.count then
    (rateLimitedResp (ipData.resetTime - now), store1)
  else if !(headerValid req.origin req.host || headerValid req.referer req.host) then
    (forbiddenResp, store1)
  else
    match req.cookie with
    | none => (noCookieResp, store1)
    | some tok =>
      if jwtVerifyOk tok now && (tok.claimType == "survey_session") then
        (passResp, storeSet store1 req.ip { ipData with count := ipData.count + 1 })
      else
        (badTokenResp, store1)

/-- The stored count for an IP (0 when no entry exists). -/
def countOf (s : RateStore) (ip : String) : Nat :=
  match storeGet s ip with
  | some d => d.count
  | none => 0

/-- Running the gate on one request per element of a list of arrival times,
threading the rate-limit store. -/
def gateSeq (store : RateStore) (req : GateRequest) : List Nat → List GateResponse × RateStore
  | [] => ([], store)
  | t :: ts =>
    let out := sessionMiddleware store req t
    let rest := gateSeq out.2 req ts
    (out.1 :: rest.1, rest.2)

/-- States of the rate-limit store reachable from process start (empty map)
by any sequence of gate invocations. -/
inductive GateReachable : RateStore → Prop where
  | init : GateReachable []
  | step (s : RateStore) (req : GateRequest) (now : Nat) :
      GateReachable s → GateReachable (sessionMiddleware s req now).2

/-- Every stored per-IP count is at most the limit. -/
def storeCapped (s : RateStore) : Bool :=
  s.all (fun p => decide (p.2.count ≤ rateLimitMax))

/-! ## Basic store lemmas -/

theorem storeGet_storeSet_self (s : RateStore) (ip : String) (d : IpData) :
    storeGet (storeSet s ip d) ip = some d := by
  induction s with
  | nil => simp [storeSet, storeGet, List.find?]
  | cons p rest ih =>
    obtain ⟨k, v⟩ := p
    by_cases h : k = ip
    · subst h
      simp [storeSet, storeGet, List.find?]
    · simp [storeSet, storeGet, List.find?, h] at ih ⊢
      exact ih

theorem storeSet_storeSet (s : RateStore) (ip : String) (d₁ d₂ : IpData) :
    storeSet (storeSet s ip d₁) ip d₂ = storeSet s ip d₂ := by
  induction s with
  | nil => simp [storeSet]
  | cons p rest ih =>
    obtain ⟨k, v⟩ := p
    by_cases h : k == ip
    · simp [storeSet, h]
    · simp [storeSet, h, ih]

/-! ## Gate step lemmas -/

theorem gate_pass_fresh (store : RateStore) (req : GateRequest) (now : Nat)
    (tok : SessionToken)
    (hget : storeGet store req.ip = none)
    (horig : (headerValid req.origin req.host || headerValid req.referer req.host) = true)
    (hcook : req.cookie = some tok)
    (hsig : tok.validSignature = true) (hexp : now < tok.expiresAt)
    (htype : tok.claimType = "survey_session") :
    sessionMiddleware store req now =
      (passResp, storeSet store req.ip { count := 1, resetTime := now + RATE_LIMIT_WINDOW }) := by
  simp [sessionMiddleware, lazyData, gateStore1, hget, hcook, hsig, htype, horig,
    jwtVerifyOk, hexp, rateLimitMax]

theorem gate_pass_cont (store : RateStore) (req : GateRequest) (now : Nat)
    (c rt : Nat) (tok : SessionToken)
    (hget : storeGet store req.ip = some { count := c, resetTime := rt })
    (hc : c < rateLimitMax) (hnow : now ≤ rt)
    (horig : (headerValid req.origin req.host || headerValid req.referer req.host) = true)
    (hcook : req.cookie = some tok)
    (hsig : tok.validSignature = true) (hexp : now < tok.expiresAt)
    (htype : tok.claimType = "survey_session") :
    sessionMiddleware store req now =
      (passResp, storeSet store req.ip { count := c + 1, resetTime := rt }) := by
  have hnx : ¬ (rt < now) := not_lt.mpr hnow
  have hcc : ¬ (rateLimitMax ≤ c) := not_le.mpr hc
  simp [sessionMiddleware, lazyData, gateStore1, hget, hcook, hsig, htype, horig,
    jwtVerifyOk, hexp, hnx, hcc]

theorem gate_block (store : RateStore) (req : GateRequest) (now : Nat) (c rt : Nat)
    (hget : storeGet store req.ip = some { count := c, resetTime := rt })
    (hc : rateLimitMax ≤ c) (hnow : now ≤ rt) :
    sessionMiddleware store req now = (rateLimitedResp (rt - now), store) := by
  have hnx : ¬ (rt < now) := not_lt.mpr hnow
  simp [sessionMiddleware, lazyData, gateStore1, hget, hnx, hc]

/-- Everything the gate can do to the store, in one case split: leave it
alone, lazily reset an expired entry, or increment the effective count on a
full pass. -/
theorem sessionMiddleware_store_cases (store : RateStore) (req : GateRequest) (now : Nat) :
    (sessionMiddleware store req now).2 = store ∨
    (sessionMiddleware store req now).2 =
      storeSet store req.ip { count := 0, resetTime := now + RATE_LIMIT_WINDOW } ∨
    ((lazyData store req.ip now).count < rateLimitMax ∧
      (sessionMiddleware store req now).2 =
        storeSet store req.ip
          { count := (lazyData store req.ip now).count + 1,
            resetTime := (lazyData store req.ip now).resetTime }) := by
  have hone : gateStore1 store req.ip now = store ∨
      gateStore1 store req.ip now =
        storeSet store req.ip { count := 0, resetTime := now + RATE_LIMIT_WINDOW } := by
    unfold gateStore1
    cases hget : storeGet store req.ip with
    | none => exact Or.inl rfl
    | some d =>
      by_cases hexp : d.resetTime < now
      · exact Or.inr (by simp [hexp])
      · exact Or.inl (by simp [hexp])
  have hset : storeSet (gateStore1 store req.ip now) req.ip
      { count := (lazyData store req.ip now).count + 1,
        resetTime := (lazyData store req.ip now).resetTime } =
      storeSet store req.ip
        { count := (lazyData store req.ip now).count + 1,
          resetTime := (lazyData store req.ip now).resetTime } := by
    rcases hone with h | h <;> rw [h]
    rw [storeSet_storeSet]
  unfold sessionMiddleware
  by_cases hlim : rateLimitMax ≤ (lazyData store req.ip now).count
  · simp only [hlim, if_true]
    rcases hone with h | h
    · exact Or.inl h
    · exact Or.inr (Or.inl h)
  · simp only [hlim, if_false]
    by_cases horig :
        (headerValid req.origin req.host || headerValid req.referer req.host) = true
    · simp only [horig, Bool.not_true, Bool.false_eq_true, if_false]
      cases hc : req.cookie with
      | none =>
        rcases hone with h | h
        · exact Or.inl h
        · exact Or.inr (Or.inl h)
      | some tok =>
        by_cases hver : (jwtVerifyOk tok now && (tok.claimType == "survey_session")) = true
        · simp only [hver, if_true]
          refine Or.inr (Or.inr ⟨not_le.mp hlim, ?_⟩)
          exact hset
        · simp only [hver, if_false]
          rcases hone with h | h
          · exact Or.inl h
          · exact Or.inr (Or.inl h)
    · simp only [Bool.not_eq_true] at horig
      simp only [horig, Bool.not_false, if_true]
      rcases hone with h | h
      · exact Or.inl h
      · exact Or.inr (Or.inl h)

theorem gate_rate_limited (store : RateStore) (req : GateRequest) (now : Nat)
    (hlim : rateLimitMax ≤ (lazyData store req.ip now).count) :
    sessionMiddleware store req now =
      (rateLimitedResp ((lazyData store req.ip now).resetTime - now),
       gateStore1 store req.ip now) := by
  simp [sessionMiddleware, hlim]

theorem gate_forbidden (store : RateStore) (req : GateRequest) (now : Nat)
    (hrate : (lazyData store req.ip now).count < rateLimitMax)
    (horig : (headerValid req.origin req.host || headerValid req.referer req.host) = false) :
    sessionMiddleware store req now = (forbiddenResp, gateStore1 store req.ip now) := by
  simp [sessionMiddleware, not_le.mpr hrate, horig]

theorem gate_no_cookie (store : RateStore) (req : GateRequest) (now : Nat)
    (hrate : (lazyData store req.ip now).count < rateLimitMax)
    (horig : (headerValid req.origin req.host || headerValid req.referer req.host) = true)
    (hcook : req.cookie = none) :
    sessionMiddleware store req now = (noCookieResp, gateStore1 store req.ip now) := by
  simp [sessionMiddleware, not_le.mpr hrate, horig, hcook]

theorem gate_bad_token (store : RateStore) (req : GateRequest) (now : Nat)
    (tok : SessionToken)
    (hrate : (lazyData store req.ip now).count < rateLimitMax)
    (horig : (headerValid req.origin req.host || headerValid req.referer req.host) = true)
    (hcook : req.cookie = some tok)
    (hver : (jwtVerifyOk tok now && (tok.claimType == "survey_session")) = false) :
    sessionMiddleware store req now = (badTokenResp, gateStore1 store req.ip now) := by
  simp [sessionMiddleware, not_le.mpr hrate, horig, hcook, hver]

theorem gate_pass_full (store : RateStore) (req : GateRequest) (now : Nat)
    (tok : SessionToken)
    (hrate : (lazyData store req.ip now).count < rateLimitMax)
    (horig : (headerValid req.origin req.host || headerValid req.referer req.host) = true)
    (hcook : req.cookie = some tok)
    (hver : (jwtVerifyOk tok now && (tok.claimType == "survey_session")) = true) :
    sessionMiddleware store req now =
      (passResp,
       storeSet store req.ip
         { count := (lazyData store req.ip now).count + 1,
           resetTime := (lazyData store req.ip now).resetTime }) := by
  have hone : gateStore1 store req.ip now = store ∨
      gateStore1 store req.ip now =
        storeSet store req.ip { count := 0, resetTime := now + RATE_LIMIT_WINDOW } := by
    unfold gateStore1
    cases hget : storeGet store req.ip with
    | none => exact Or.inl rfl
    | some d =>
      by_cases hexp : d.resetTime < now
      · exact Or.inr (by simp [hexp])
      · exact Or.inl (by simp [hexp])
  have hset : storeSet (gateStore1 store req.ip now) req.ip
      { count := (lazyData store req.ip now).count + 1,
        resetTime := (lazyData store req.ip now).resetTime } =
      storeSet store req.ip
        { count := (lazyData store req.ip now).count + 1,
          resetTime := (lazyData store req.ip now).resetTime } := by
    rcases hone with h | h <;> rw [h]
    rw [storeSet_storeSet]
  rw [show sessionMiddleware store req now =
      (passResp, storeSet (gateStore1 store req.ip now) req.ip
        { count := (lazyData store req.ip now).count + 1,
          resetTime := (lazyData store req.ip now).resetTime }) from by
    simp [sessionMiddleware, not_le.mpr hrate, horig, hcook, hver]]
  rw [hset]

/-- In every rejecting branch the store is exactly the post-lazy-reset store. -/
theorem gate_reject_store (store : RateStore) (req : GateRequest) (now : Nat)
    (h : (sessionMiddleware store req now).1.proceeds = false) :
    (sessionMiddleware store req now).2 = gateStore1 store req.ip now := by
  by_cases hlim : rateLimitMax ≤ (lazyData store req.ip now).count
  · rw [gate_rate_limited store req now hlim]
  · by_cases horig :
        (headerValid req.origin req.host || headerValid req.referer req.host) = true
    · cases hcook : req.cookie with
      | none => rw [gate_no_cookie store req now (not_le.mp hlim) horig hcook]
      | some tok =>
        by_cases hver : (jwtVerifyOk tok now && (tok.claimType == "survey_session")) = true
        · rw [gate_pass_full store req now tok (not_le.mp hlim) horig hcook hver] at h
          simp [passResp] at h
        · rw [gate_bad_token store req now tok (not_le.mp hlim) horig hcook
            (by simpa using hver)]
    · rw [gate_forbidden store req now (not_le.mp hlim) (by simpa using horig)]

/-- A proceeding request is exactly a full pass: the store receives the
incremented count. -/
theorem gate_proceed_store (store : RateStore) (req : GateRequest) (now : Nat)
    (h : (sessionMiddleware store req now).1.proceeds = true) :
    (sessionMiddleware store req now).2 =
      storeSet store req.ip
        { count := (lazyData store req.ip now).count + 1,
          resetTime := (lazyData store req.ip now).resetTime } := by
  by_cases hlim : rateLimitMax ≤ (lazyData store req.ip now).count
  · rw [gate_rate_limited store req now hlim] at h
    simp [rateLimitedResp] at h
  · by_cases horig :
        (headerValid req.origin req.host || headerValid req.referer req.host) = true
    · cases hcook : req.cookie with
      | none =>
        rw [gate_no_cookie store req now (not_le.mp hlim) horig hcook] at h
        simp [noCookieResp] at h
      | some tok =>
        by_cases hver : (jwtVerifyOk tok now && (tok.claimType == "survey_session")) = true
        · rw [gate_pass_full store req now tok (not_le.mp hlim) horig hcook hver]
        · rw [gate_bad_token store req now tok (not_le.mp hlim) horig hcook
            (by simpa using hver)] at h
          simp [badTokenResp] at h
    · rw [gate_forbidden store req now (not_le.mp hlim) (by simpa using horig)] at h
      simp [forbiddenResp] at h

/-! ## Concrete fixtures used by witnesses and counterexamples -/

/-- A token as issued by `GET /api/session`, far from expiry. -/
def goodTok : SessionToken :=
  { validSignature := true, expiresAt := 999999999, claimType := "survey_session" }

/-- A fully valid kiosk request (loopback origin, good cookie). -/
def goodReq : GateRequest :=
  { ip := "203.0.113.9", origin := some "http://localhost:3000", referer := none,
    host := "localhost:3000", cookie := some goodTok }

/-! ## C1 -/

/-- C1: from a fresh window for an IP, five fully valid submissions inside
the 10-minute window all pass the gate, and the sixth is rejected with 429
and `retryAfter = ceil((resetTime - now) / 1000)` seconds, the remaining
window time. -/
theorem c1_rate_limit_window (store : RateStore) (req : GateRequest)
    (tok : SessionToken) (t1 t2 t3 t4 t5 t6 : Nat)
    (hfresh : storeGet store req.ip = none)
    (h12 : t1 ≤ t2) (h23 : t2 ≤ t3) (h34 : t3 ≤ t4) (h45 : t4 ≤ t5) (h56 : t5 ≤ t6)
    (hwin : t6 ≤ t1 + RATE_LIMIT_WINDOW)
    (horig : (headerValid req.origin req.host || headerValid req.referer req.host) = true)
    (hcook : req.cookie = some tok)
    (hsig : tok.validSignature = true) (hexp : t6 < tok.expiresAt)
    (htype : tok.claimType = "survey_session") :
    (gateSeq store req [t1, t2, t3, t4, t5, t6]).1 =
      [passResp, passResp, passResp, passResp, passResp,
       rateLimitedResp (t1 + RATE_LIMIT_WINDOW - t6)] := by
  have hx1 : t1 < tok.expiresAt := by omega
  have hx2 : t2 < tok.expiresAt := by omega
  have hx3 : t3 < tok.expiresAt := by omega
  have hx4 : t4 < tok.expiresAt := by omega
  have hx5 : t5 < tok.expiresAt := by omega
  have hmax : rateLimitMax = 5 := rfl
  have e1 := gate_pass_fresh store req t1 tok hfresh horig hcook hsig hx1 htype
  have g1 := storeGet_storeSet_self store req.ip
    { count := 1, resetTime := t1 + RATE_LIMIT_WINDOW }
  have e2 := gate_pass_cont (storeSet store req.ip
      { count := 1, resetTime := t1 + RATE_LIMIT_WINDOW }) req t2 1
      (t1 + RATE_LIMIT_WINDOW) tok g1 (by omega) (by omega) horig hcook hsig hx2 htype
  rw [storeSet_storeSet] at e2
  have g2 := storeGet_storeSet_self store req.ip
    { count := 2, resetTime := t1 + RATE_LIMIT_WINDOW }
  have e3 := gate_pass_cont (storeSet store req.ip
      { count := 2, resetTime := t1 + RATE_LIMIT_WINDOW }) req t3 2
      (t1 + RATE_LIMIT_WINDOW) tok g2 (by omega) (by omega) horig hcook hsig hx3 htype
  rw [storeSet_storeSet] at e3
  have g3 := storeGet_storeSet_self store req.ip
    { count := 3, resetTime := t1 + RATE_LIMIT_WINDOW }
  have e4 := gate_pass_cont (storeSet store req.ip
      { count := 3, resetTime := t1 + RATE_LIMIT_WINDOW }) req t4 3
      (t1 + RATE_LIMIT_WINDOW) tok g3 (by omega) (by omega) horig hcook hsig hx4 htype
  rw [storeSet_storeSet] at e4
  have g4 := storeGet_storeSet_self store req.ip
    { count := 4, resetTime := t1 + RATE_LIMIT_WINDOW }
  have e5 := gate_pass_cont (storeSet store req.ip
      { count := 4, resetTime := t1 + RATE_LIMIT_WINDOW }) req t5 4
      (t1 + RATE_LIMIT_WINDOW) tok g4 (by omega) (by omega) horig hcook hsig hx5 htype
  rw [storeSet_storeSet] at e5
  have g5 := storeGet_storeSet_self store req.ip
    { count := 5, resetTime := t1 + RATE_LIMIT_WINDOW }
  have e6 := gate_block (storeSet store req.ip
      { count := 5, resetTime := t1 + RATE_LIMIT_WINDOW }) req t6 5
      (t1 + RATE_LIMIT_WINDOW) g5 (by omega) hwin
  simp [gateSeq, e1, e2, e3, e4, e5, e6]

/-- Witness for C1 on fully concrete data. -/
theorem c1_rate_limit_window_witness :
    (gateSeq [] goodReq [0, 1, 2, 3, 4, 5]).1 =
      [passResp, passResp, passResp, passResp, passResp,
       rateLimitedResp (0 + RATE_LIMIT_WINDOW - 5)] :=
  c1_rate_limit_window [] goodReq goodTok 0 1 2 3 4 5 rfl (by decide) (by decide)
    (by decide) (by decide) (by decide) (by decide) (by decide) rfl rfl (by decide) rfl

/-! ## C2 -/

/-- Initial store for the C2 counterexample: IP already has a count of 3
with an expired window. -/
def c2store : RateStore := [("1.2.3.4", { count := 3, resetTime := 100 })]

/-- A request from that IP failing the Origin/Referer check. -/
def c2req : GateRequest :=
  { ip := "1.2.3.4", origin := none, referer := none, host := "survey.local",
    cookie := none }

/-- C2 counterexample: a request rejected by the Origin check (status 403,
so not rejected by the limiter itself) nevertheless changes the stored
rate-limit counter for its IP from 3 to 0, because the lazy window reset
mutates the stored entry in place before the rejection. -/
theorem c2_counterexample :
    (sessionMiddleware c2store c2req 200).1.status = 403 ∧
    (sessionMiddleware c2store c2req 200).1.proceeds = false ∧
    countOf c2store "1.2.3.4" = 3 ∧
    countOf (sessionMiddleware c2store c2req 200).2 "1.2.3.4" = 0 := by decide

/-- C2 (amended): a rejected request never *increments* the stored counter:
it leaves the store untouched except that an expired stored window may be
lazily reset to `count = 0` with a fresh `resetTime`; the counter is
incremented (to the post-reset count plus one) exactly when the full chain
of checks passes. -/
theorem c2_counter_frame (store : RateStore) (req : GateRequest) (now : Nat) :
    ((sessionMiddleware store req now).1.proceeds = false →
      (sessionMiddleware store req now).2 = store ∨
      (∃ d, storeGet store req.ip = some d ∧ d.resetTime < now ∧
        (sessionMiddleware store req now).2 =
          storeSet store req.ip { count := 0, resetTime := now + RATE_LIMIT_WINDOW })) ∧
    ((sessionMiddleware store req now).1.proceeds = true →
      countOf (sessionMiddleware store req now).2 req.ip =
        (lazyData store req.ip now).count + 1) := by
  constructor
  · intro h
    rw [gate_reject_store store req now h]
    unfold gateStore1
    cases hget : storeGet store req.ip with
    | none => exact Or.inl rfl
    | some d =>
      by_cases hexp : d.resetTime < now
      · exact Or.inr ⟨d, rfl, hexp, by simp [hexp]⟩
      · exact Or.inl (by simp [hexp])
  · intro h
    rw [gate_proceed_store store req now h]
    unfold countOf
    rw [storeGet_storeSet_self]

/-- Witness for C2 (amended), pass direction: a fully valid request from a
fresh IP leaves a stored count of 1. -/
theorem c2_counter_frame_witness :
    countOf (sessionMiddleware [] goodReq 0).2 goodReq.ip =
      (lazyData [] goodReq.ip 0).count + 1 :=
  (c2_counter_frame [] goodReq 0).2 (by decide)

/-! ## C10 -/

theorem storeCapped_iff (s : RateStore) :
    storeCapped s = true ↔ ∀ p ∈ s, p.2.count ≤ rateLimitMax := by
  simp [storeCapped, List.all_eq_true]

theorem mem_storeSet (s : RateStore) (ip : String) (d : IpData)
    (p : String × IpData) (hp : p ∈ storeSet s ip d) : p ∈ s ∨ p = (ip, d) := by
  induction s with
  | nil => simpa [storeSet] using hp
  | cons q rest ih =>
    obtain ⟨k, v⟩ := q
    by_cases h : k == ip
    · simp [storeSet, h] at hp
      rcases hp with h1 | h1
      · right
        simp [h1, show k = ip from by simpa using h]
      · exact Or.inl (List.mem_cons_of_mem _ h1)
    · simp [storeSet, h] at hp
      rcases hp with h1 | h1
      · exact Or.inl (by simp [h1])
      · rcases ih h1 with h2 | h2
        · exact Or.inl (List.mem_cons_of_mem _ h2)
        · exact Or.inr h2

theorem storeCapped_storeSet (s : RateStore) (ip : String) (d : IpData)
    (hs : storeCapped s = true) (hd : d.count ≤ rateLimitMax) :
    storeCapped (storeSet s ip d) = true := by
  rw [storeCapped_iff] at hs ⊢
  intro p hp
  rcases mem_storeSet s ip d p hp with h | h
  · exact hs p h
  · rw [h]; exact hd

/-- C10: in every state of the rate-limit store reachable from process
start, every stored per-IP count is at most `RATE_LIMIT_MAX = 5`: the gate
increments only after checking `count < 5` and resets expired windows to 0. -/
theorem c10_count_never_exceeds_max (s : RateStore) (h : GateReachable s) :
    storeCapped s = true := by
  induction h with
  | init => rfl
  | step s req now hr ih =>
    rcases sessionMiddleware_store_cases s req now with h1 | h1 | ⟨hc, h1⟩
    · rw [h1]; exact ih
    · rw [h1]
      exact storeCapped_storeSet s req.ip _ ih (by simp)
    · rw [h1]
      refine storeCapped_storeSet s req.ip _ ih ?_
      show (lazyData s req.ip now).count + 1 ≤ rateLimitMax
      omega

/-- Witness for C10 at a concrete reachable state (one pass through the gate). -/
theorem c10_count_never_exceeds_max_witness :
    storeCapped (sessionMiddleware [] goodReq 0).2 = true :=
  c10_count_never_exceeds_max _ (GateReachable.step [] goodReq 0 GateReachable.init)

/-! ## C3 -/

/-- The claim's acceptance condition for one header, stated in the spec's
words: the header is present and textually contains the Host value or a
loopback hostname. -/
def headerMatches (hdr : Option String) (host : String) : Prop :=
  ∃ h, hdr = some h ∧
    (strContains h host = true ∨ strContains h "localhost" = true ∨
     strContains h "127.0.0.1" = true)

theorem toList_ne_nil_of_ne_empty (s : String) (h : s ≠ "") : s.toList ≠ [] := by
  intro hc
  exact h (String.toList_inj.mp (by rw [hc, String.toList_empty]))

theorem strContains_empty_left (pat : String) (hpat : pat.toList ≠ []) :
    strContains "" pat = false := by
  unfold strContains
  rw [String.toList_empty]
  cases hp : pat.toList with
  | nil => exact absurd hp hpat
  | cons c cs => simp [charsContain, isStartOf]

theorem headerValid_iff (hdr : Option String) (host : String) (hhost : host ≠ "") :
    headerValid hdr host = true ↔ headerMatches hdr host := by
  cases hdr with
  | none => simp [headerValid, headerMatches]
  | some h =>
    by_cases hne : h = ""
    · subst hne
      have h1 : strContains "" host = false :=
        strContains_empty_left host (toList_ne_nil_of_ne_empty host hhost)
      have h2 : strContains "" "localhost" = false := by decide
      have h3 : strContains "" "127.0.0.1" = false := by decide
      simp [headerValid, headerMatches, h1, h2, h3]
    · simp [headerValid, headerMatches, hne, or_assoc]

/-- The two concrete requests of the claim, identical except for `Origin`. -/
def evilOriginReq : GateRequest :=
  { ip := "198.51.100.7", origin := some "https://evil-site.com", referer := none,
    host := "survey.example.com", cookie := some goodTok }

/-- Same request with an `Origin` matching the `Host`. -/
def okOriginReq : GateRequest := { evilOriginReq with origin := some "https://survey.example.com" }

/-- C3: the Origin/Referer validator accepts exactly when the `Origin` or
`Referer` header textually contains the request's `Host` value or a loopback
hostname; otherwise the gate rejects with the 403 "must come from browser"
response.  In particular the two requests differing only in `Origin`
(valid vs `https://evil-site.com`) pass and get 403 respectively. -/
theorem c3_origin_referer_check (store : RateStore) (req : GateRequest) (now : Nat)
    (hhost : req.host ≠ "")
    (hrate : (lazyData store req.ip now).count < rateLimitMax) :
    ((headerValid req.origin req.host || headerValid req.referer req.host) = true ↔
      (headerMatches req.origin req.host ∨ headerMatches req.referer req.host)) ∧
    (¬ (headerMatches req.origin req.host ∨ headerMatches req.referer req.host) →
      (sessionMiddleware store req now).1 = forbiddenResp) ∧
    (sessionMiddleware [] okOriginReq 0).1.proceeds = true ∧
    (sessionMiddleware [] evilOriginReq 0).1 = forbiddenResp := by
  have hiff : (headerValid req.origin req.host || headerValid req.referer req.host) = true ↔
      (headerMatches req.origin req.host ∨ headerMatches req.referer req.host) := by
    rw [Bool.or_eq_true, headerValid_iff req.origin req.host hhost,
      headerValid_iff req.referer req.host hhost]
  refine ⟨hiff, ?_, by decide, by decide⟩
  intro hno
  have hfalse : (headerValid req.origin req.host || headerValid req.referer req.host) = false := by
    rw [← Bool.not_eq_true, hiff]
    exact hno
  rw [gate_forbidden store req now hrate hfalse]

/-- Witness for C3: a valid-origin request with all hypotheses concrete. -/
theorem c3_origin_referer_check_witness :
    (sessionMiddleware [] okOriginReq 0).1.proceeds = true :=
  (c3_origin_referer_check [] okOriginReq 0 (by decide) (by decide)).2.2.1

/-! ## C4 -/

/-- A request with valid origin but no `survey_session` cookie at all. -/
def noCookieReq : GateRequest :=
  { ip := "5.5.5.5", origin := some "http://localhost:3000", referer := none,
    host := "localhost:3000", cookie := none }

/-- C4 counterexample: a request failing the session check because the
cookie is missing is rejected with 401, but the source does *not* clear the
`survey_session` cookie on that path (clearing happens only in the catch
branch for a presented-but-invalid token), contradicting the claim that the
cookie is cleared on any failure. -/
theorem c4_counterexample :
    (sessionMiddleware [] noCookieReq 0).1.status = 401 ∧
    (sessionMiddleware [] noCookieReq 0).1.clearsCookie = false ∧
    (sessionMiddleware [] noCookieReq 0).1.proceeds = false := by decide

/-- C4 (amended): at the session-token check, verification succeeds exactly
for a signed, unexpired token whose purpose claim is `survey_session`; a
missing cookie is rejected with 401 *without* clearing the cookie, while a
presented token failing verification is rejected with 401 *with* the cookie
cleared; in every failure case the request never proceeds to the recorder. -/
theorem c4_session_token_check (store : RateStore) (req : GateRequest) (now : Nat)
    (hrate : (lazyData store req.ip now).count < rateLimitMax)
    (horig : (headerValid req.origin req.host || headerValid req.referer req.host) = true) :
    (req.cookie = none →
      (sessionMiddleware store req now).1 = noCookieResp ∧
      noCookieResp.status = 401 ∧ noCookieResp.clearsCookie = false ∧
      noCookieResp.proceeds = false) ∧
    (∀ tok, req.cookie = some tok →
      ¬ (tok.validSignature = true ∧ now < tok.expiresAt ∧
         tok.claimType = "survey_session") →
      (sessionMiddleware store req now).1 = badTokenResp ∧
      badTokenResp.status = 401 ∧ badTokenResp.clearsCookie = true ∧
      badTokenResp.proceeds = false) ∧
    (∀ tok, req.cookie = some tok →
      ((sessionMiddleware store req now).1.proceeds = true ↔
        (tok.validSignature = true ∧ now < tok.expiresAt ∧
         tok.claimType = "survey_session"))) := by
  refine ⟨?_, ?_, ?_⟩
  · intro hcook
    rw [gate_no_cookie store req now hrate horig hcook]
    exact ⟨rfl, rfl, rfl, rfl⟩
  · intro tok hcook hbad
    have hver : (jwtVerifyOk tok now && (tok.claimType == "survey_session")) = false := by
      rw [Bool.and_eq_false_iff]
      by_cases hsig : tok.validSignature = true
      · by_cases hexp : now < tok.expiresAt
        · refine Or.inr ?_
          have htype : tok.claimType ≠ "survey_session" := fun hc => hbad ⟨hsig, hexp, hc⟩
          simpa using htype
        · exact Or.inl (by simp [jwtVerifyOk, hexp])
      · exact Or.inl (by simp [jwtVerifyOk, hsig])
    rw [gate_bad_token store req now tok hrate horig hcook hver]
    exact ⟨rfl, rfl, rfl, rfl⟩
  · intro tok hcook
    by_cases hver : (jwtVerifyOk tok now && (tok.claimType == "survey_session")) = true
    · rw [gate_pass_full store req now tok hrate horig hcook hver]
      simp only [passResp, true_iff]
      simp only [Bool.and_eq_true, jwtVerifyOk, decide_eq_true_eq, beq_iff_eq] at hver
      exact ⟨hver.1.1, hver.1.2, hver.2⟩
    · rw [gate_bad_token store req now tok hrate horig hcook (by simpa using hver)]
      simp only [badTokenResp, Bool.false_eq_true, false_iff]
      intro hgood
      exact hver (by simp [jwtVerifyOk, hgood.1, hgood.2.1, hgood.2.2])

/-- A token that is already expired at time 0. -/
def expiredTok : SessionToken :=
  { validSignature := true, expiresAt := 0, claimType := "survey_session" }

/-- A valid-origin request presenting the expired token. -/
def expiredTokReq : GateRequest :=
  { ip := "5.5.5.6", origin := some "http://localhost:3000", referer := none,
    host := "localhost:3000", cookie := some expiredTok }

/-- Witness for C4 (amended): an expired token is rejected with the
cookie-clearing 401 response. -/
theorem c4_session_token_check_witness :
    (sessionMiddleware [] expiredTokReq 0).1 = badTokenResp ∧
    badTokenResp.status = 401 ∧ badTokenResp.clearsCookie = true ∧
    badTokenResp.proceeds = false :=
  (c4_session_token_check [] expiredTokReq 0 (by decide) (by decide)).2.1
    expiredTok rfl (by decide)

/-! ## Admin login (source: `POST /admin/login`) -/

/-- One row of `admin_users`. -/
structure AdminUser where
  id : Nat
  username : String
  passwordHash : String
  name : String
  isActive : Bool
  lastLogin : Option Nat
deriving Repr, DecidableEq

/-- The JWT issued on success: `jwt.sign({id, username, name}, secret,
expiresIn 24h)`. -/
structure AdminToken where
  idClaim : Nat
  usernameClaim : String
  nameClaim : String
  expiresInHours : Nat
deriving Repr, DecidableEq

/-- The login endpoint's observable response. -/
structure LoginResult where
  status : Nat
  success : Bool
  errMsg : Option String
  token : Option AdminToken
  userInfo : Option (Nat × String × String)
deriving Repr, DecidableEq

/-- The literal 401 body sent for unknown user, inactive user, and failed
password comparison alike. -/
def invalidCredsResult : LoginResult :=
  { status := 401, success := false, errMsg := some "Invalid credentials",
    token := none, userInfo := none }

/-- `POST /admin/login`.  `bcryptOk` stands for `bcrypt.compare` (external
library); the `admin_users` table is a list queried with
`WHERE username = ? AND is_active = 1` (first row wins); `now` is the value
of SQL `NOW()` used for the last-login update. -/
def adminLogin (bcryptOk : String → String → Bool) (db : List AdminUser)
    (username pw : String) (now : Nat) : LoginResult × List AdminUser :=
  if username == "" || pw == "" then
    ({ status := 400, success := false, errMsg := some "Username and password required",
       token := none, userInfo := none }, db)
  else
    match db.find? (fun u => u.username == username && u.isActive) with
    | none => (invalidCredsResult, db)
    | some u =>
      if bcryptOk pw u.passwordHash then
        ({ status := 200, success := true, errMsg := none,
           token := some { idClaim := u.id, usernameClaim := u.username,
                           nameClaim := u.name, expiresInHours := 24 },
           userInfo := some (u.id, u.username, u.name) },
         db.map (fun v => if v.id == u.id then { v with lastLogin := some now } else v))
      else (invalidCredsResult, db)

/-! ## C6 -/

/-- C6: unknown username, inactive account, and failed bcrypt comparison
all produce the literally identical 401 body (`invalidCredsResult`) with
the table untouched; a successful login issues a 24-hour token carrying
exactly the claims id/username/name and updates that user's last-login
timestamp to `now`, leaving every other row unchanged. -/
theorem c6_admin_login (bcryptOk : String → String → Bool) (db : List AdminUser)
    (username pw : String) (now : Nat)
    (hu : username ≠ "") (hp : pw ≠ "") :
    ((∀ u ∈ db, u.username ≠ username) →
      adminLogin bcryptOk db username pw now = (invalidCredsResult, db)) ∧
    ((∀ u ∈ db, u.username = username → u.isActive = false) →
      adminLogin bcryptOk db username pw now = (invalidCredsResult, db)) ∧
    (∀ u, db.find? (fun v => v.username == username && v.isActive) = some u →
      bcryptOk pw u.passwordHash = false →
      adminLogin bcryptOk db username pw now = (invalidCredsResult, db)) ∧
    (∀ u, db.find? (fun v => v.username == username && v.isActive) = some u →
      bcryptOk pw u.passwordHash = true →
      adminLogin bcryptOk db username pw now =
        ({ status := 200, success := true, errMsg := none,
           token := some { idClaim := u.id, usernameClaim := u.username,
                           nameClaim := u.name, expiresInHours := 24 },
           userInfo := some (u.id, u.username, u.name) },
         db.map (fun v => if v.id == u.id then { v with lastLogin := some now } else v))) := by
  have hne : (username == "" || pw == "") = false := by
    simp [hu, hp]
  refine ⟨?_, ?_, ?_, ?_⟩
  · intro hnone
    have hfind : db.find? (fun v => v.username == username && v.isActive) = none := by
      rw [List.find?_eq_none]
      intro u hmem
      simp [hnone u hmem]
    simp [adminLogin, hne, hfind]
  · intro hinact
    have hfind : db.find? (fun v => v.username == username && v.isActive) = none := by
      rw [List.find?_eq_none]
      intro u hmem
      by_cases hname : u.username = username
      · simp [hname, hinact u hmem hname]
      · simp [hname]
    simp [adminLogin, hne, hfind]
  · intro u hfind hbad
    simp [adminLogin, hne, hfind, hbad]
  · intro u hfind hok
    simp [adminLogin, hne, hfind, hok]

/-- A concrete one-row admin table for the C6 witness. -/
def adminDb : List AdminUser :=
  [{ id := 1, username := "admin", passwordHash := "hash-of-secret",
     name := "Administrator", isActive := true, lastLogin := none }]

/-- Witness for C6: a failed password comparison on the concrete table
yields the shared 401 body and leaves the table unchanged. -/
theorem c6_admin_login_witness :
    adminLogin (fun p h => p == h) adminDb "admin" "wrong-password" 42 =
      (invalidCredsResult, adminDb) :=
  (c6_admin_login (fun p h => p == h) adminDb "admin" "wrong-password" 42
    (by decide) (by decide)).2.2.1
    { id := 1, username := "admin", passwordHash := "hash-of-secret",
      name := "Administrator", isActive := true, lastLogin := none }
    (by decide) (by decide)

/-! ## Report percentages (source: `GET /admin/api/reports/pdf`) -/

/-- JS `Math.round` on a nonnegative rational: round half up. -/
def jsMathRound (q : ℚ) : ℤ := Int.floor (q + 1 / 2)

/-- The per-question percentage:
`qTotal > 0 ? Math.round((count / qTotal) * 100) : 0`
(the same formula computes the satisfaction-meter percentage). -/
def pctOf (count total : Nat) : ℤ :=
  if 0 < total then jsMathRound ((count : ℚ) / (total : ℚ) * 100) else 0

/-! ## C8 -/

/-- C8: the percentage is total on all inputs: a question with zero
responses yields 0 instead of a division error, and for a positive total
the result is the integer nearest to `count / total * 100` (within 1/2,
halves rounding up as `Math.round` does). -/
theorem c8_percentage_rounding (count total : Nat) :
    (total = 0 → pctOf count total = 0) ∧
    (0 < total →
      |(pctOf count total : ℚ) - (count : ℚ) / (total : ℚ) * 100| ≤ 1 / 2) := by
  constructor
  · intro h
    simp [pctOf, h]
  · intro h
    have hq : pctOf count total = jsMathRound ((count : ℚ) / (total : ℚ) * 100) := by
      simp [pctOf, h]
    rw [hq]
    set x : ℚ := (count : ℚ) / (total : ℚ) * 100 with hx
    have h1 : ((Int.floor (x + 1 / 2) : ℤ) : ℚ) ≤ x + 1 / 2 := Int.floor_le _
    have h2 : x + 1 / 2 - 1 < ((Int.floor (x + 1 / 2) : ℤ) : ℚ) := Int.sub_one_lt_floor _
    rw [abs_le]
    constructor
    · unfold jsMathRound
      linarith
    · unfold jsMathRound
      linarith

/-- Witness for C8: 1 of 3 responses rounds to 33, within half a point of
100/3. -/
theorem c8_percentage_rounding_witness :
    |(pctOf 1 3 : ℚ) - (1 : ℚ) / (3 : ℚ) * 100| ≤ 1 / 2 := by
  have h := (c8_percentage_rounding 1 3).2 (by decide)
  simpa using h

/-! ## Question catalog (source: `questions` table, `POST
/admin/api/questions/reset`, `GET /api/questions`) -/

/-- One row of the `questions` table as used by the part-1 server. -/
structure CatalogQuestion where
  id : Nat
  questionKey : String
  questionText : String
  questionSubtitle : String
  optionPositive : String
  optionNeutral : String
  optionNegative : String
  displayOrder : Nat
  isActive : Bool
deriving Repr, DecidableEq

/-- One entry of the endpoint's hard-coded `defaults` array. -/
structure DefaultQ where
  key : String
  text : String
  positive : String
  neutral : String
  negative : String
deriving Repr, DecidableEq

/-- The `defaults` literal from `POST /admin/api/questions/reset`. -/
def defaultQuestions : List DefaultQ :=
  [{ key := "q1", text := "Bagaimana kecepatan pelayanan kami?",
     positive := "SANGAT CEPAT", neutral := "CUKUP CEPAT", negative := "KURANG CEPAT" },
   { key := "q2", text := "Bagaimana keramahan petugas kami?",
     positive := "SANGAT RAMAH", neutral := "CUKUP RAMAH", negative := "KURANG RAMAH" },
   { key := "q3", text := "Bagaimana kejelasan informasi yang diberikan?",
     positive := "SANGAT JELAS", neutral := "CUKUP JELAS", negative := "KURANG JELAS" },
   { key := "q4", text := "Bagaimana kondisi fasilitas kami?",
     positive := "SANGAT BAIK", neutral := "CUKUP BAIK", negative := "KURANG BAIK" },
   { key := "q5", text := "Secara keseluruhan, bagaimana kepuasan Anda?",
     positive := "SANGAT PUAS", neutral := "CUKUP PUAS", negative := "KURANG PUAS" }]

/-- The row update performed by one `UPDATE questions SET ... WHERE
question_key = ?`: text, the three option labels and the active flag; id,
subtitle and display order are untouched. -/
def applyDefaultTo (d : DefaultQ) (q : CatalogQuestion) : CatalogQuestion :=
  { q with questionText := d.text, optionPositive := d.positive,
           optionNeutral := d.neutral, optionNegative := d.negative, isActive := true }

/-- One `UPDATE ... WHERE question_key = ?` over the whole table. -/
def applyDefaultQ (cat : List CatalogQuestion) (d : DefaultQ) : List CatalogQuestion :=
  cat.map (fun q => if q.questionKey == d.key then applyDefaultTo d q else q)

/-- `POST /admin/api/questions/reset`: the loop of five UPDATEs. -/
def resetToDefaults (cat : List CatalogQuestion) : List CatalogQuestion :=
  defaultQuestions.foldl applyDefaultQ cat

/-- Insertion step of the deterministic model of `ORDER BY display_order ASC`. -/
def insertByOrder (q : CatalogQuestion) : List CatalogQuestion → List CatalogQuestion
  | [] => [q]
  | r :: rs => if q.displayOrder ≤ r.displayOrder then q :: r :: rs else r :: insertByOrder q rs

/-- Stable sort by `display_order` ascending. -/
def sortByOrder (l : List CatalogQuestion) : List CatalogQuestion :=
  l.foldr insertByOrder []

/-- `GET /api/questions`: active questions ordered by `display_order` ASC. -/
def listActive (cat : List CatalogQuestion) : List CatalogQuestion :=
  sortByOrder (cat.filter (fun q => q.isActive))

/-- Whole-database state relevant to the reset endpoint: the endpoint only
issues UPDATEs on `questions`, never touching `surveys`. -/
structure CatalogState where
  questionsTable : List CatalogQuestion
  surveysCount : Nat
deriving Repr, DecidableEq

/-- The reset endpoint acting on the whole state. -/
def resetEndpoint (s : CatalogState) : CatalogState :=
  { s with questionsTable := resetToDefaults s.questionsTable }

/-! ## C9 -/

/-- A catalog holding the five seed rows. -/
def seedCatalog : List CatalogQuestion :=
  [{ id := 1, questionKey := "q1", questionText := "t1", questionSubtitle := "",
     optionPositive := "p", optionNeutral := "n", optionNegative := "m",
     displayOrder := 1, isActive := true },
   { id := 2, questionKey := "q2", questionText := "t2", questionSubtitle := "",
     optionPositive := "p", optionNeutral := "n", optionNegative := "m",
     displayOrder := 2, isActive := true },
   { id := 3, questionKey := "q3", questionText := "t3", questionSubtitle := "",
     optionPositive := "p", optionNeutral := "n", optionNegative := "m",
     displayOrder := 3, isActive := true },
   { id := 4, questionKey := "q4", questionText := "t4", questionSubtitle := "",
     optionPositive := "p", optionNeutral := "n", optionNegative := "m",
     displayOrder := 4, isActive := true },
   { id := 5, questionKey := "q5", questionText := "t5", questionSubtitle := "",
     optionPositive := "p", optionNeutral := "n", optionNegative := "m",
     displayOrder := 5, isActive := true }]

/-- The seed catalog extended by an admin-created sixth active question. -/
def sixQuestionCatalog : List CatalogQuestion :=
  seedCatalog ++
    [{ id := 6, questionKey := "q6", questionText := "extra", questionSubtitle := "",
       optionPositive := "p", optionNeutral := "n", optionNegative := "m",
       displayOrder := 6, isActive := true }]

/-- C9 counterexample: on a catalog with a sixth active question,
`resetToDefaults` (which only UPDATEs rows keyed q1..q5 and never deletes
or deactivates others) followed by `listActive` returns six questions, not
the fixed 5-question seed set. -/
theorem c9_counterexample :
    (listActive (resetToDefaults sixQuestionCatalog)).map
        (fun q => q.questionKey) = ["q1", "q2", "q3", "q4", "q5", "q6"] ∧
    (listActive (resetToDefaults sixQuestionCatalog)).length ≠ 5 := by decide

/-- The five entries of the `defaults` literal, named individually. -/
def dq1 : DefaultQ :=
  { key := "q1", text := "Bagaimana kecepatan pelayanan kami?",
    positive := "SANGAT CEPAT", neutral := "CUKUP CEPAT", negative := "KURANG CEPAT" }

/-- Second entry of the `defaults` literal. -/
def dq2 : DefaultQ :=
  { key := "q2", text := "Bagaimana keramahan petugas kami?",
    positive := "SANGAT RAMAH", neutral := "CUKUP RAMAH", negative := "KURANG RAMAH" }

/-- Third entry of the `defaults` literal. -/
def dq3 : DefaultQ :=
  { key := "q3", text := "Bagaimana kejelasan informasi yang diberikan?",
    positive := "SANGAT JELAS", neutral := "CUKUP JELAS", negative := "KURANG JELAS" }

/-- Fourth entry of the `defaults` literal. -/
def dq4 : DefaultQ :=
  { key := "q4", text := "Bagaimana kondisi fasilitas kami?",
    positive := "SANGAT BAIK", neutral := "CUKUP BAIK", negative := "KURANG BAIK" }

/-- Fifth entry of the `defaults` literal. -/
def dq5 : DefaultQ :=
  { key := "q5", text := "Secara keseluruhan, bagaimana kepuasan Anda?",
    positive := "SANGAT PUAS", neutral := "CUKUP PUAS", negative := "KURANG PUAS" }

theorem defaultQuestions_eq : defaultQuestions = [dq1, dq2, dq3, dq4, dq5] := rfl

/-- C9 (amended): on a catalog whose questions table holds exactly the five
rows keyed q1..q5 with nondecreasing display order, resetToDefaults
restores the seed text and option labels and re-activates all five while
preserving ids, display order, subtitles and the surveys table (existing
responses), and listActive then returns exactly those five questions in
order with unchanged identities. -/
theorem c9_reset_round_trip (s : CatalogState) (a b c d e : CatalogQuestion)
    (hcat : s.questionsTable = [a, b, c, d, e])
    (hka : a.questionKey = "q1") (hkb : b.questionKey = "q2")
    (hkc : c.questionKey = "q3") (hkd : d.questionKey = "q4")
    (hke : e.questionKey = "q5")
    (hab : a.displayOrder ≤ b.displayOrder) (hbc : b.displayOrder ≤ c.displayOrder)
    (hcd : c.displayOrder ≤ d.displayOrder) (hde : d.displayOrder ≤ e.displayOrder) :
    (resetEndpoint s).surveysCount = s.surveysCount ∧
    listActive (resetEndpoint s).questionsTable =
      [applyDefaultTo dq1 a, applyDefaultTo dq2 b, applyDefaultTo dq3 c,
       applyDefaultTo dq4 d, applyDefaultTo dq5 e] ∧
    (listActive (resetEndpoint s).questionsTable).map (fun q => q.id) =
      [a.id, b.id, c.id, d.id, e.id] ∧
    (listActive (resetEndpoint s).questionsTable).map (fun q => q.questionText) =
      defaultQuestions.map (fun q => q.text) ∧
    (listActive (resetEndpoint s).questionsTable).map (fun q => q.questionSubtitle) =
      [a.questionSubtitle, b.questionSubtitle, c.questionSubtitle,
       d.questionSubtitle, e.questionSubtitle] := by
  have hreset : (resetEndpoint s).questionsTable =
      [applyDefaultTo dq1 a, applyDefaultTo dq2 b, applyDefaultTo dq3 c,
       applyDefaultTo dq4 d, applyDefaultTo dq5 e] := by
    simp [resetEndpoint, resetToDefaults, defaultQuestions_eq,
      applyDefaultQ, hcat, hka, hkb, hkc, hkd, hke, applyDefaultTo,
      dq1, dq2, dq3, dq4, dq5]
  have hsorted : listActive (resetEndpoint s).questionsTable =
      [applyDefaultTo dq1 a, applyDefaultTo dq2 b, applyDefaultTo dq3 c,
       applyDefaultTo dq4 d, applyDefaultTo dq5 e] := by
    rw [hreset]
    simp only [listActive, List.filter, applyDefaultTo, sortByOrder, List.foldr_cons,
      List.foldr_nil, insertByOrder]
    simp [insertByOrder, hab, hbc, hcd, hde]
  refine ⟨rfl, hsorted, ?_, ?_, ?_⟩ <;> rw [hsorted] <;>
    simp [applyDefaultTo, defaultQuestions, dq1, dq2, dq3, dq4, dq5]

/-- A surveys counter paired with the seed catalog, for the C9 witness. -/
def seedState : CatalogState := { questionsTable := seedCatalog, surveysCount := 7 }

/-- Witness for C9 (amended) on the concrete seed catalog. -/
theorem c9_reset_round_trip_witness :
    (resetEndpoint seedState).surveysCount = seedState.surveysCount ∧
    (listActive (resetEndpoint seedState).questionsTable).map (fun q => q.id) =
      [1, 2, 3, 4, 5] := by
  have h := c9_reset_round_trip seedState
    (seedCatalog.get ⟨0, by decide⟩) (seedCatalog.get ⟨1, by decide⟩)
    (seedCatalog.get ⟨2, by decide⟩) (seedCatalog.get ⟨3, by decide⟩)
    (seedCatalog.get ⟨4, by decide⟩)
    (by decide) (by decide) (by decide) (by decide) (by decide) (by decide)
    (by decide) (by decide) (by decide) (by decide)
  exact ⟨h.1, by rw [h.2.2.1]; decide⟩

/-! ## Normalized-schema recorder (source: part-2 `POST /api/survey`) -/

/-- A JSON answer value: a numeric option id or a string value code
(`typeof value === 'number'` branch in the source). -/
inductive AnswerVal where
  | num (n : Int)
  | str (s : String)
deriving Repr, DecidableEq

/-- One row of `answer_options`. -/
structure OptionRow where
  id : Int
  questionId : Int
  optionValue : String
deriving Repr, DecidableEq

/-- One row of `survey_responses`. -/
structure ResponseRow where
  submissionId : Int
  questionId : Int
  optionId : Int
deriving Repr, DecidableEq

/-- One row of `survey_submissions`. -/
structure SubmissionRow where
  id : Int
  ipAddress : String
  userAgent : String
deriving Repr, DecidableEq

/-- One row of the legacy `surveys` table (the dual write). -/
structure LegacyRow where
  q1 : Option AnswerVal
  q2 : Option AnswerVal
  q3 : Option AnswerVal
  q4 : Option AnswerVal
  q5 : Option AnswerVal
  userAgent : String
  ipAddress : String
deriving Repr, DecidableEq

/-- The relational state touched by the recorder; `nextSubmissionId` models
the AUTO_INCREMENT counter behind `insertId`. -/
structure NormDb where
  nextSubmissionId : Int
  submissions : List SubmissionRow
  responses : List ResponseRow
  answerOptions : List OptionRow
  legacySurveys : List LegacyRow
deriving Repr, DecidableEq

/-- Leading decimal digits of a character list, if any (JS `parseInt`
returns NaN when no leading digits exist). -/
def leadingNat (cs : List Char) : Option Nat :=
  let ds := cs.takeWhile (fun c => c.isDigit)
  if ds.isEmpty then none
  else some (ds.foldl (fun a c => a * 10 + (c.toNat - 48)) 0)

/-- JS `parseInt` on the trimmed key: optional minus sign then leading
digits; `none` models NaN. -/
def parseIntJS (cs : List Char) : Option Int :=
  match cs with
  | '-' :: rest => (leadingNat rest).map (fun n => -(n : Int))
  | _ => (leadingNat cs).map (fun n => (n : Int))

/-- `key.replace('q', '')`: removes the first occurrence of `q`. -/
def dropFirstQ : List Char → List Char
  | [] => []
  | c :: cs => if c == 'q' then cs else c :: dropFirstQ cs

/-- `parseInt(key.replace('q', ''))`; `none` is the `isNaN` case. -/
def parseQuestionId (key : String) : Option Int :=
  parseIntJS (dropFirstQ key.toList)

/-- Resolving an answer to an option id: a number is taken as the option
id directly; a string is looked up in `answer_options` by
`(question_id, option_value)`, first row wins. -/
def resolveOptionId (opts : List OptionRow) (questionId : Int) (v : AnswerVal) : Option Int :=
  match v with
  | .num n => some n
  | .str s =>
    (opts.find? (fun o => o.questionId == questionId && o.optionValue == s)).map
      (fun o => o.id)

/-- JS truthiness of an answer value (`0` and the empty string are falsy). -/
def truthy : AnswerVal → Bool
  | .num n => n != 0
  | .str s => s != ""

/-- `surveyAnswers[k]` when truthy, else nothing (one step of the
`a || b || null` chain). -/
def lookupTruthy (answers : List (String × AnswerVal)) (k : String) : Option AnswerVal :=
  match answers.find? (fun kv => kv.1 == k) with
  | some kv => if truthy kv.2 then some kv.2 else none
  | none => none

/-- `surveyAnswers.qN || surveyAnswers['N'] || null`. -/
def legacyGet (answers : List (String × AnswerVal)) (k1 k2 : String) : Option AnswerVal :=
  match lookupTruthy answers k1 with
  | some v => some v
  | none => lookupTruthy answers k2

/-- One write inside the transaction: `failAt` says whether the k-th write
of this request fails (any database write error); on success the write is
applied to the scratch state and the write index advances. -/
def txWrite (failAt : Nat → Bool) (st : Nat × NormDb) (apply : NormDb → NormDb) :
    Option (Nat × NormDb) :=
  if failAt st.1 then none else some (st.1 + 1, apply st.2)

/-- Handling of a single `[key, value]` entry of the payload loop: parse
the question id (`continue` on NaN), resolve the option id, skip falsy or
unresolved option ids, and otherwise insert one `survey_responses` row. -/
def answerStep (failAt : Nat → Bool) (sid : Int) (st : Nat × NormDb)
    (kv : String × AnswerVal) : Option (Nat × NormDb) :=
  match parseQuestionId kv.1 with
  | none => some st
  | some qid =>
    match resolveOptionId st.2.answerOptions qid kv.2 with
    | none => some st
    | some oid =>
      if oid == 0 then some st
      else
        txWrite failAt st (fun d =>
          { d with responses :=
              d.responses ++ [{ submissionId := sid, questionId := qid, optionId := oid }] })

/-- The per-answer loop of the recorder: one `answerStep` per entry of
`Object.entries(surveyAnswers)`, aborting the transaction on the first
failed write. -/
def insertResponsesLoop (failAt : Nat → Bool) (answers : List (String × AnswerVal))
    (sid : Int) (st : Nat × NormDb) : Option (Nat × NormDb) :=
  match answers with
  | [] => some st
  | kv :: rest =>
    match answerStep failAt sid st kv with
    | none => none
    | some st1 => insertResponsesLoop failAt rest sid st1

/-- The recorder's observable response. -/
structure SubmitResult where
  status : Nat
  errMsg : Option String
  submissionId : Option Int
deriving Repr, DecidableEq

/-- The legacy `surveys` row written by the dual write:
`surveyAnswers.qN || surveyAnswers['N'] || null` per column. -/
def legacyRowOf (answers : List (String × AnswerVal)) (ip ua : String) : LegacyRow :=
  { q1 := legacyGet answers "q1" "1", q2 := legacyGet answers "q2" "2",
    q3 := legacyGet answers "q3" "3", q4 := legacyGet answers "q4" "4",
    q5 := legacyGet answers "q5" "5", userAgent := ua, ipAddress := ip }

/-- The `INSERT INTO survey_submissions` write. -/
def headerWriteFun (sid : Int) (ip ua : String) : NormDb → NormDb := fun d =>
  { d with
      submissions := d.submissions ++ [{ id := sid, ipAddress := ip, userAgent := ua }],
      nextSubmissionId := sid + 1 }

/-- The legacy `INSERT INTO surveys` dual write. -/
def legacyWriteFun (answers : List (String × AnswerVal)) (ip ua : String) :
    NormDb → NormDb := fun d =>
  { d with legacySurveys := d.legacySurveys ++ [legacyRowOf answers ip ua] }

/-- The transaction body: header insert, the response loop, then the legacy
dual write; `none` is an aborted (rolled-back) transaction. -/
def surveyTx (failAt : Nat → Bool) (db : NormDb) (answers : List (String × AnswerVal))
    (ip ua : String) : Option (Nat × NormDb) :=
  match txWrite failAt (0, db) (headerWriteFun db.nextSubmissionId ip ua) with
  | none => none
  | some st1 =>
    match insertResponsesLoop failAt answers db.nextSubmissionId st1 with
    | none => none
    | some st2 => txWrite failAt st2 (legacyWriteFun answers ip ua)

/-- Part-2 `POST /api/survey`: reject non-object bodies with 400; otherwise
run the transaction; commit on success (201 with the fresh submission id),
else roll the whole scratch state back and answer 500 "Failed to save
survey" against the unchanged database. -/
def submitSurveyNormalized (db : NormDb) (failAt : Nat → Bool)
    (body : Option (List (String × AnswerVal))) (ip ua : String) :
    SubmitResult × NormDb :=
  match body with
  | none =>
    ({ status := 400, errMsg := some "Invalid survey data", submissionId := none }, db)
  | some answers =>
    match surveyTx failAt db answers ip ua with
    | some st => ({ status := 201, errMsg := none,
                    submissionId := some db.nextSubmissionId }, st.2)
    | none => ({ status := 500, errMsg := some "Failed to save survey",
                 submissionId := none }, db)

/-- The response rows the loop resolves, computed directly: one row per
answer whose key parses and whose value resolves to a truthy option id. -/
def resolvedRows (opts : List OptionRow) (sid : Int)
    (answers : List (String × AnswerVal)) : List ResponseRow :=
  answers.filterMap (fun kv =>
    match parseQuestionId kv.1 with
    | none => none
    | some qid =>
      match resolveOptionId opts qid kv.2 with
      | none => none
      | some oid =>
        if oid == 0 then none
        else some { submissionId := sid, questionId := qid, optionId := oid })

/-- The fully committed state: header row, resolved response rows, legacy
dual-write row, everything else untouched. -/
def committedDb (db : NormDb) (answers : List (String × AnswerVal))
    (ip ua : String) : NormDb :=
  { nextSubmissionId := db.nextSubmissionId + 1,
    submissions := db.submissions ++
      [{ id := db.nextSubmissionId, ipAddress := ip, userAgent := ua }],
    responses := db.responses ++
      resolvedRows db.answerOptions db.nextSubmissionId answers,
    answerOptions := db.answerOptions,
    legacySurveys := db.legacySurveys ++ [legacyRowOf answers ip ua] }

theorem answerStep_spec (failAt : Nat → Bool) (sid : Int) (st : Nat × NormDb)
    (kv : String × AnswerVal) :
    answerStep failAt sid st kv = none ∨
    ∃ st', answerStep failAt sid st kv = some st' ∧
      st'.2 = { st.2 with responses :=
        st.2.responses ++ resolvedRows st.2.answerOptions sid [kv] } := by
  cases hq : parseQuestionId kv.1 with
  | none =>
    refine Or.inr ⟨st, ?_, ?_⟩
    · simp [answerStep, hq]
    · simp [resolvedRows, List.filterMap_cons, hq]
  | some qid =>
    cases ho : resolveOptionId st.2.answerOptions qid kv.2 with
    | none =>
      refine Or.inr ⟨st, ?_, ?_⟩
      · simp [answerStep, hq, ho]
      · simp [resolvedRows, List.filterMap_cons, hq, ho]
    | some oid =>
      by_cases hz : oid == 0
      · refine Or.inr ⟨st, ?_, ?_⟩
        · simp [answerStep, hq, ho, hz]
        · simp [resolvedRows, List.filterMap_cons, hq, ho,
            (show oid = 0 by simpa using hz)]
      · by_cases hf : failAt st.1
        · refine Or.inl ?_
          simp [answerStep, hq, ho, hz, txWrite, hf]
        · refine Or.inr ⟨(st.1 + 1, { st.2 with responses := st.2.responses ++
              [{ submissionId := sid, questionId := qid, optionId := oid }] }), ?_, ?_⟩
          · simp [answerStep, hq, ho, hz, txWrite, hf]
          · simp [resolvedRows, List.filterMap_cons, hq, ho,
              (show ¬ oid = 0 by simpa using hz)]

theorem answerStep_total (failAt : Nat → Bool) (sid : Int) (st : Nat × NormDb)
    (kv : String × AnswerVal) (hok : ∀ i, failAt i = false) :
    ∃ st', answerStep failAt sid st kv = some st' := by
  cases hq : parseQuestionId kv.1 with
  | none => exact ⟨st, by simp [answerStep, hq]⟩
  | some qid =>
    cases ho : resolveOptionId st.2.answerOptions qid kv.2 with
    | none => exact ⟨st, by simp [answerStep, hq, ho]⟩
    | some oid =>
      by_cases hz : oid == 0
      · exact ⟨st, by simp [answerStep, hq, ho, hz]⟩
      · exact ⟨(st.1 + 1, { st.2 with responses := st.2.responses ++
            [{ submissionId := sid, questionId := qid, optionId := oid }] }),
          by simp [answerStep, hq, ho, hz, txWrite, hok st.1]⟩

theorem resolvedRows_nil (opts : List OptionRow) (sid : Int) :
    resolvedRows opts sid [] = [] := rfl

theorem resolvedRows_cons (opts : List OptionRow) (sid : Int)
    (kv : String × AnswerVal) (rest : List (String × AnswerVal)) :
    resolvedRows opts sid (kv :: rest) =
      resolvedRows opts sid [kv] ++ resolvedRows opts sid rest := by
  unfold resolvedRows
  rw [show kv :: rest = [kv] ++ rest from rfl, List.filterMap_append]

theorem insertResponsesLoop_spec (failAt : Nat → Bool)
    (answers : List (String × AnswerVal)) (sid : Int) :
    ∀ st : Nat × NormDb,
      insertResponsesLoop failAt answers sid st = none ∨
      ∃ st', insertResponsesLoop failAt answers sid st = some st' ∧
        st'.2 = { st.2 with responses :=
          st.2.responses ++ resolvedRows st.2.answerOptions sid answers } := by
  induction answers with
  | nil =>
    intro st
    refine Or.inr ⟨st, rfl, ?_⟩
    simp [resolvedRows, List.filterMap_nil]
  | cons kv rest ih =>
    intro st
    have hcons : insertResponsesLoop failAt (kv :: rest) sid st =
        match answerStep failAt sid st kv with
        | none => none
        | some st1 => insertResponsesLoop failAt rest sid st1 := rfl
    rcases answerStep_spec failAt sid st kv with hstep | ⟨st1, hstep, hst1⟩
    · rw [hcons, hstep]
      exact Or.inl rfl
    · rw [hcons, hstep]
      show insertResponsesLoop failAt rest sid st1 = none ∨ _
      rcases ih st1 with h | ⟨st', h1, h2⟩
      · exact Or.inl h
      · refine Or.inr ⟨st', h1, ?_⟩
        have hsplit : resolvedRows st.2.answerOptions sid (kv :: rest) =
            resolvedRows st.2.answerOptions sid [kv] ++
              resolvedRows st.2.answerOptions sid rest :=
          resolvedRows_cons _ _ _ _
        rw [h2, hst1, hsplit, List.append_assoc]

theorem insertResponsesLoop_total (failAt : Nat → Bool)
    (answers : List (String × AnswerVal)) (sid : Int)
    (hok : ∀ i, failAt i = false) :
    ∀ st : Nat × NormDb, ∃ st', insertResponsesLoop failAt answers sid st = some st' := by
  induction answers with
  | nil => intro st; exact ⟨st, rfl⟩
  | cons kv rest ih =>
    intro st
    have hcons : insertResponsesLoop failAt (kv :: rest) sid st =
        match answerStep failAt sid st kv with
        | none => none
        | some st1 => insertResponsesLoop failAt rest sid st1 := rfl
    rcases answerStep_total failAt sid st kv hok with ⟨st1, hstep⟩
    rw [hcons, hstep]
    exact ih st1

theorem surveyTx_eq_fail0 (failAt : Nat → Bool) (db : NormDb)
    (answers : List (String × AnswerVal)) (ip ua : String)
    (hf0 : failAt 0 = true) : surveyTx failAt db answers ip ua = none := by
  unfold surveyTx
  rw [show txWrite failAt (0, db) (headerWriteFun db.nextSubmissionId ip ua) = none
    from by simp [txWrite, hf0]]

theorem surveyTx_eq_after_header (failAt : Nat → Bool) (db : NormDb)
    (answers : List (String × AnswerVal)) (ip ua : String)
    (hf0 : failAt 0 = false) :
    surveyTx failAt db answers ip ua =
      (match insertResponsesLoop failAt answers db.nextSubmissionId
          (1, headerWriteFun db.nextSubmissionId ip ua db) with
        | none => none
        | some st2 => txWrite failAt st2 (legacyWriteFun answers ip ua)) := by
  unfold surveyTx
  rw [show txWrite failAt (0, db) (headerWriteFun db.nextSubmissionId ip ua) =
      some (1, headerWriteFun db.nextSubmissionId ip ua db)
    from by simp [txWrite, hf0]]

theorem surveyTx_spec (failAt : Nat → Bool) (db : NormDb)
    (answers : List (String × AnswerVal)) (ip ua : String) :
    surveyTx failAt db answers ip ua = none ∨
    ∃ st, surveyTx failAt db answers ip ua = some st ∧
      st.2 = committedDb db answers ip ua := by
  by_cases hf0 : failAt 0
  · exact Or.inl (surveyTx_eq_fail0 failAt db answers ip ua hf0)
  · rw [surveyTx_eq_after_header failAt db answers ip ua (by simpa using hf0)]
    rcases insertResponsesLoop_spec failAt answers db.nextSubmissionId
        (1, headerWriteFun db.nextSubmissionId ip ua db) with hloop | ⟨st2, hloop, hst2⟩
    · rw [hloop]
      exact Or.inl rfl
    · rw [hloop]
      by_cases hf2 : failAt st2.1
      · exact Or.inl (by simp [txWrite, hf2])
      · refine Or.inr ⟨(st2.1 + 1, legacyWriteFun answers ip ua st2.2),
          by simp [txWrite, hf2], ?_⟩
        show legacyWriteFun answers ip ua st2.2 = committedDb db answers ip ua
        rw [hst2]
        simp [legacyWriteFun, headerWriteFun, committedDb]

theorem surveyTx_total (failAt : Nat → Bool) (db : NormDb)
    (answers : List (String × AnswerVal)) (ip ua : String)
    (hok : ∀ i, failAt i = false) :
    ∃ st, surveyTx failAt db answers ip ua = some st := by
  rw [surveyTx_eq_after_header failAt db answers ip ua (hok 0)]
  rcases insertResponsesLoop_total failAt answers db.nextSubmissionId hok
      (1, headerWriteFun db.nextSubmissionId ip ua db) with ⟨st2, hloop⟩
  rw [hloop]
  exact ⟨(st2.1 + 1, legacyWriteFun answers ip ua st2.2), by simp [txWrite, hok st2.1]⟩

theorem submitSurveyNormalized_some (db : NormDb) (failAt : Nat → Bool)
    (answers : List (String × AnswerVal)) (ip ua : String) :
    submitSurveyNormalized db failAt (some answers) ip ua =
      (match surveyTx failAt db answers ip ua with
        | some st => ({ status := 201, errMsg := none,
                        submissionId := some db.nextSubmissionId }, st.2)
        | none => ({ status := 500, errMsg := some "Failed to save survey",
                     submissionId := none }, db)) := rfl

/-! ## C5 -/

/-- C5: the recorder is transactional and total on object bodies: it
answers 201 or 500 and nothing else; a 500 rolls back everything (the
state is exactly the prior one) with the generic "Failed to save survey"
message; a 201 returns the fresh submission id and commits, atomically, the
header row, exactly one response row per *resolved* answer (unparseable
keys and unresolvable values are silently skipped, never rejected) and the
legacy dual-write row; and when no write fails the request always succeeds. -/
theorem c5_transactional_recorder (db : NormDb) (failAt : Nat → Bool)
    (answers : List (String × AnswerVal)) (ip ua : String) :
    ((submitSurveyNormalized db failAt (some answers) ip ua).1.status = 201 ∨
     (submitSurveyNormalized db failAt (some answers) ip ua).1.status = 500) ∧
    ((submitSurveyNormalized db failAt (some answers) ip ua).1.status = 500 →
      (submitSurveyNormalized db failAt (some answers) ip ua).2 = db ∧
      (submitSurveyNormalized db failAt (some answers) ip ua).1.errMsg =
        some "Failed to save survey" ∧
      (submitSurveyNormalized db failAt (some answers) ip ua).1.submissionId = none) ∧
    ((submitSurveyNormalized db failAt (some answers) ip ua).1.status = 201 →
      (submitSurveyNormalized db failAt (some answers) ip ua).1.submissionId =
        some db.nextSubmissionId ∧
      (submitSurveyNormalized db failAt (some answers) ip ua).2 =
        committedDb db answers ip ua) ∧
    ((∀ i, failAt i = false) →
      (submitSurveyNormalized db failAt (some answers) ip ua).1.status = 201) := by
  rw [submitSurveyNormalized_some]
  rcases surveyTx_spec failAt db answers ip ua with htx | ⟨st, htx, hst⟩
  · rw [htx]
    refine ⟨Or.inr rfl, fun _ => ⟨rfl, rfl, rfl⟩, fun hc => ?_, fun hok => ?_⟩
    · simp at hc
    · rcases surveyTx_total failAt db answers ip ua hok with ⟨st, hsome⟩
      rw [htx] at hsome
      exact absurd hsome (by simp)
  · rw [htx]
    refine ⟨Or.inl rfl, fun hc => ?_, fun _ => ⟨rfl, hst⟩, fun _ => rfl⟩
    simp at hc

/-- A concrete options table and payload for the C5 witness: q1 answered by
value code, q2 by option id, one key unparseable, one value unresolvable. -/
def c5db : NormDb :=
  { nextSubmissionId := 10, submissions := [], responses := [],
    answerOptions :=
      [{ id := 1, questionId := 1, optionValue := "sangat_baik" },
       { id := 2, questionId := 1, optionValue := "cukup_baik" },
       { id := 4, questionId := 2, optionValue := "sangat_baik" }],
    legacySurveys := [] }

/-- The C5 witness payload. -/
def c5answers : List (String × AnswerVal) :=
  [("q1", AnswerVal.str "sangat_baik"), ("q2", AnswerVal.num 4),
   ("junk", AnswerVal.str "sangat_baik"), ("q3", AnswerVal.str "nonexistent")]

/-- Witness for C5: with no write failures the concrete submission succeeds
with status 201. -/
theorem c5_transactional_recorder_witness :
    (submitSurveyNormalized c5db (fun _ => false) (some c5answers) "1.1.1.1" "ua").1.status
      = 201 :=
  (c5_transactional_recorder c5db (fun _ => false) c5answers "1.1.1.1" "ua").2.2.2
    (fun _ => rfl)

/-! ## Heatmap (source: `GET /admin/api/heatmap`) -/

/-- One `surveys` row as seen by the heatmap query.  `dayOfWeek` and `hour`
are MySQL's `DAYOFWEEK(created_at)` (1=Sunday..7=Saturday) and
`HOUR(created_at)` (0..23), carried as fields since the calendar functions
live in the database. -/
structure SurveyRow where
  dayOfWeek : Nat
  hour : Nat
  createdAt : Nat
deriving Repr, DecidableEq

/-- 30 days in milliseconds (`DATE_SUB(NOW(), INTERVAL 30 DAY)`). -/
def WINDOW_30_DAYS : Nat := 30 * 24 * 60 * 60 * 1000

/-- `created_at >= DATE_SUB(NOW(), INTERVAL 30 DAY)`. -/
def inWindow30 (now : Nat) (r : SurveyRow) : Bool :=
  decide (now - WINDOW_30_DAYS ≤ r.createdAt)

/-- The grouped `COUNT(*)` for one (day-of-week, hour) pair over the
trailing 30-day window. -/
def countDH (tbl : List SurveyRow) (now d h : Nat) : Nat :=
  (tbl.filter (fun r => inWindow30 now r && r.dayOfWeek == d && r.hour == h)).length

/-- One potential output row of the grouped query for 0-based day `d` and
hour `h`: SQL `GROUP BY` emits a row exactly when the count is positive. -/
def cellFor (tbl : List SurveyRow) (now d h : Nat) : Option (Nat × Nat × Nat) :=
  if 0 < countDH tbl now (d + 1) h then some (d + 1, h, countDH tbl now (d + 1) h)
  else none

/-- The grouped-query rows for one day of week, hours ascending. -/
def blockFor (tbl : List SurveyRow) (now d : Nat) : List (Nat × Nat × Nat) :=
  (List.range 24).filterMap (cellFor tbl now d)

/-- The result set of the grouped heatmap query, ordered by
`day_of_week, hour` as in the SQL `ORDER BY`. -/
def groupedQuery (tbl : List SurveyRow) (now : Nat) : List (Nat × Nat × Nat) :=
  (List.range 7).flatMap (blockFor tbl now)

/-- The endpoint's output: the 7x24 matrix and `maxCount`. -/
structure HeatmapData where
  matrix : Nat → Nat → Nat
  maxCount : Nat

/-- `matrix[row.day_of_week - 1][row.hour] = row.count` for one query row. -/
def applyHeatRow (m : Nat → Nat → Nat) (row : Nat × Nat × Nat) : Nat → Nat → Nat :=
  fun d h => if d == row.1 - 1 && h == row.2.1 then row.2.2 else m d h

/-- `if (row.count > maxCount) maxCount = row.count`. -/
def maxStep (acc : Nat) (row : Nat × Nat × Nat) : Nat :=
  if acc < row.2.2 then row.2.2 else acc

/-- The heatmap transform: a 7x24 all-zero matrix filled by assignment from
the grouped rows, and the running maximum starting at 0. -/
def heatmapOf (tbl : List SurveyRow) (now : Nat) : HeatmapData :=
  { matrix := (groupedQuery tbl now).foldl applyHeatRow (fun _ _ => 0),
    maxCount := (groupedQuery tbl now).foldl maxStep 0 }

theorem foldl_applyHeatRow_of_no_match (d0 h0 : Nat) :
    ∀ (L : List (Nat × Nat × Nat)) (m : Nat → Nat → Nat),
      (∀ row ∈ L, ¬ (row.1 - 1 = d0 ∧ row.2.1 = h0)) →
      L.foldl applyHeatRow m d0 h0 = m d0 h0 := by
  intro L
  induction L with
  | nil => intro m _; rfl
  | cons row L ih =>
    intro m hno
    have hrow : ¬ (row.1 - 1 = d0 ∧ row.2.1 = h0) := hno row (List.mem_cons_self _ _)
    have hcell : applyHeatRow m row d0 h0 = m d0 h0 := by
      unfold applyHeatRow
      have : (d0 == row.1 - 1 && h0 == row.2.1) = false := by
        rw [Bool.and_eq_false_iff]
        by_cases h1 : d0 = row.1 - 1
        · refine Or.inr ?_
          simp only [beq_eq_false_iff_ne, ne_eq]
          intro h2
          exact hrow ⟨h1.symm, h2.symm⟩
        · exact Or.inl (by simpa using h1)
      simp [this]
    have := ih (applyHeatRow m row) (fun r hr => hno r (List.mem_cons_of_mem _ hr))
    rw [List.foldl_cons, this, hcell]

theorem mem_blockFor (tbl : List SurveyRow) (now d : Nat) (row : Nat × Nat × Nat)
    (h : row ∈ blockFor tbl now d) :
    row.1 = d + 1 ∧ row.2.1 < 24 ∧ row.2.2 = countDH tbl now (d + 1) row.2.1 ∧
      0 < row.2.2 := by
  unfold blockFor at h
  rcases List.mem_filterMap.mp h with ⟨h0, hmem, hcell⟩
  unfold cellFor at hcell
  by_cases hc : 0 < countDH tbl now (d + 1) h0
  · rw [if_pos hc] at hcell
    cases hcell
    exact ⟨rfl, List.mem_range.mp hmem, rfl, hc⟩
  · rw [if_neg hc] at hcell
    cases hcell

theorem foldl_cells (tbl : List SurveyRow) (now d0 h0 : Nat) :
    ∀ (hs : List Nat) (m : Nat → Nat → Nat), hs.Nodup →
      (hs.filterMap (cellFor tbl now d0)).foldl applyHeatRow m d0 h0 =
        if h0 ∈ hs ∧ 0 < countDH tbl now (d0 + 1) h0 then countDH tbl now (d0 + 1) h0
        else m d0 h0 := by
  intro hs
  induction hs with
  | nil =>
    intro m _
    simp
  | cons h hs ih =>
    intro m hnodup
    have hnody : h ∉ hs := (List.nodup_cons.mp hnodup).1
    have hnod : hs.Nodup := (List.nodup_cons.mp hnodup).2
    by_cases hcount : 0 < countDH tbl now (d0 + 1) h
    · rw [show (h :: hs).filterMap (cellFor tbl now d0) =
          (d0 + 1, h, countDH tbl now (d0 + 1) h) ::
            hs.filterMap (cellFor tbl now d0) from by
        simp [List.filterMap_cons, cellFor, hcount]]
      rw [List.foldl_cons, ih _ hnod]
      have happ : applyHeatRow m (d0 + 1, h, countDH tbl now (d0 + 1) h) d0 h0 =
          if h0 = h then countDH tbl now (d0 + 1) h else m d0 h0 := by
        unfold applyHeatRow
        by_cases hhh : h0 = h
        · simp [hhh]
        · simp [hhh]
      by_cases hhh : h0 = h
      · subst hhh
        rw [if_neg (fun hc => hnody hc.1), happ, if_pos rfl,
          if_pos ⟨List.mem_cons_self _ _, hcount⟩]
      · rw [happ, if_neg hhh]
        by_cases hin : h0 ∈ hs ∧ 0 < countDH tbl now (d0 + 1) h0
        · rw [if_pos hin, if_pos ⟨List.mem_cons_of_mem _ hin.1, hin.2⟩]
        · rw [if_neg hin,
            if_neg (fun hc => hin ⟨(List.mem_cons.mp hc.1).resolve_left hhh, hc.2⟩)]
    · rw [show (h :: hs).filterMap (cellFor tbl now d0) =
          hs.filterMap (cellFor tbl now d0) from by
        simp [List.filterMap_cons, cellFor, hcount]]
      rw [ih _ hnod]
      by_cases hhh : h0 = h
      · subst hhh
        rw [if_neg (fun hc => hnody hc.1), if_neg (fun hc => hcount hc.2)]
      · by_cases hin : h0 ∈ hs ∧ 0 < countDH tbl now (d0 + 1) h0
        · rw [if_pos hin, if_pos ⟨List.mem_cons_of_mem _ hin.1, hin.2⟩]
        · rw [if_neg hin,
            if_neg (fun hc => hin ⟨(List.mem_cons.mp hc.1).resolve_left hhh, hc.2⟩)]

theorem foldl_blocks (tbl : List SurveyRow) (now d0 h0 : Nat) (hh0 : h0 < 24) :
    ∀ (ds : List Nat) (m : Nat → Nat → Nat), ds.Nodup →
      ((ds.flatMap (blockFor tbl now)).foldl applyHeatRow m) d0 h0 =
        if d0 ∈ ds ∧ 0 < countDH tbl now (d0 + 1) h0 then countDH tbl now (d0 + 1) h0
        else m d0 h0 := by
  intro ds
  induction ds with
  | nil =>
    intro m _
    simp
  | cons d ds ih =>
    intro m hnodup
    have hnody : d ∉ ds := (List.nodup_cons.mp hnodup).1
    have hnod : ds.Nodup := (List.nodup_cons.mp hnodup).2
    rw [List.flatMap_cons, List.foldl_append, ih _ hnod]
    by_cases hdd : d = d0
    · subst hdd
      have hblock : (blockFor tbl now d).foldl applyHeatRow m d h0 =
          if 0 < countDH tbl now (d + 1) h0 then countDH tbl now (d + 1) h0
          else m d h0 := by
        unfold blockFor
        rw [foldl_cells tbl now d h0 (List.range 24) m (List.nodup_range 24)]
        by_cases hcount : 0 < countDH tbl now (d + 1) h0
        · rw [if_pos ⟨List.mem_range.mpr hh0, hcount⟩, if_pos hcount]
        · rw [if_neg (fun hc => hcount hc.2), if_neg hcount]
      rw [if_neg (fun hc => hnody hc.1), hblock]
      by_cases hcount : 0 < countDH tbl now (d + 1) h0
      · rw [if_pos hcount, if_pos ⟨List.mem_cons_self _ _, hcount⟩]
      · rw [if_neg hcount, if_neg (fun hc => hcount hc.2)]
    · have hblock : (blockFor tbl now d).foldl applyHeatRow m d0 h0 = m d0 h0 := by
        apply foldl_applyHeatRow_of_no_match
        intro row hrow hc
        have := (mem_blockFor tbl now d row hrow).1
        apply hdd
        omega
      rw [hblock]
      by_cases hin : d0 ∈ ds ∧ 0 < countDH tbl now (d0 + 1) h0
      · rw [if_pos hin, if_pos ⟨List.mem_cons_of_mem _ hin.1, hin.2⟩]
      · rw [if_neg hin,
          if_neg (fun hc => hin
            ⟨(List.mem_cons.mp hc.1).resolve_left (fun he => hdd he.symm), hc.2⟩)]

theorem heatmap_matrix_eq (tbl : List SurveyRow) (now : Nat) (d0 h0 : Nat)
    (hd0 : d0 < 7) (hh0 : h0 < 24) :
    (heatmapOf tbl now).matrix d0 h0 = countDH tbl now (d0 + 1) h0 := by
  show ((groupedQuery tbl now).foldl applyHeatRow (fun _ _ => 0)) d0 h0 = _
  unfold groupedQuery
  rw [foldl_blocks tbl now d0 h0 hh0 (List.range 7) _ (List.nodup_range 7)]
  by_cases hcount : 0 < countDH tbl now (d0 + 1) h0
  · rw [if_pos ⟨List.mem_range.mpr hd0, hcount⟩]
  · rw [if_neg (fun hc => hcount hc.2)]
    omega

theorem le_foldl_maxStep (L : List (Nat × Nat × Nat)) :
    ∀ a : Nat, a ≤ L.foldl maxStep a := by
  induction L with
  | nil => intro a; exact le_refl a
  | cons row L ih =>
    intro a
    refine le_trans ?_ (ih (maxStep a row))
    unfold maxStep
    split <;> omega

theorem mem_le_foldl_maxStep (L : List (Nat × Nat × Nat)) :
    ∀ (a : Nat) (row : Nat × Nat × Nat), row ∈ L → row.2.2 ≤ L.foldl maxStep a := by
  induction L with
  | nil => intro a row h; cases h
  | cons r L ih =>
    intro a row h
    rcases List.mem_cons.mp h with h | h
    · subst h
      refine le_trans ?_ (le_foldl_maxStep L (maxStep a row))
      unfold maxStep
      split <;> omega
    · exact ih (maxStep a r) row h

theorem foldl_maxStep_attained (L : List (Nat × Nat × Nat)) :
    ∀ a : Nat, L.foldl maxStep a = a ∨ ∃ row ∈ L, L.foldl maxStep a = row.2.2 := by
  induction L with
  | nil => intro a; exact Or.inl rfl
  | cons r L ih =>
    intro a
    rcases ih (maxStep a r) with h | ⟨row, hrow, h⟩
    · by_cases hc : a < r.2.2
      · have hm : maxStep a r = r.2.2 := if_pos hc
        rw [List.foldl_cons, hm]
        rw [hm] at h
        exact Or.inr ⟨r, List.mem_cons_self _ _, h⟩
      · have hm : maxStep a r = a := if_neg hc
        rw [List.foldl_cons, hm]
        rw [hm] at h
        exact Or.inl h
    · exact Or.inr ⟨row, List.mem_cons_of_mem _ hrow, h⟩

theorem mem_groupedQuery (tbl : List SurveyRow) (now : Nat) (row : Nat × Nat × Nat)
    (h : row ∈ groupedQuery tbl now) :
    ∃ d, d < 7 ∧ row.1 = d + 1 ∧ row.2.1 < 24 ∧
      row.2.2 = countDH tbl now (d + 1) row.2.1 ∧ 0 < row.2.2 := by
  unfold groupedQuery at h
  rcases List.mem_flatMap.mp h with ⟨d, hd, hrow⟩
  have := mem_blockFor tbl now d row hrow
  exact ⟨d, List.mem_range.mp hd, this⟩

theorem groupedQuery_mem_of_pos (tbl : List SurveyRow) (now : Nat) (d0 h0 : Nat)
    (hd0 : d0 < 7) (hh0 : h0 < 24) (hc : 0 < countDH tbl now (d0 + 1) h0) :
    (d0 + 1, h0, countDH tbl now (d0 + 1) h0) ∈ groupedQuery tbl now := by
  unfold groupedQuery
  refine List.mem_flatMap.mpr ⟨d0, List.mem_range.mpr hd0, ?_⟩
  unfold blockFor
  refine List.mem_filterMap.mpr ⟨h0, List.mem_range.mpr hh0, ?_⟩
  unfold cellFor
  rw [if_pos hc]

theorem countDH_cons (r : SurveyRow) (tbl : List SurveyRow) (now d h : Nat) :
    countDH (r :: tbl) now d h =
      countDH tbl now d h +
        (if (inWindow30 now r && r.dayOfWeek == d && r.hour == h) = true then 1 else 0) := by
  unfold countDH
  rw [List.filter_cons]
  split <;> simp

theorem indicator_sum (r : SurveyRow) (now : Nat)
    (hday1 : 1 ≤ r.dayOfWeek) (hday7 : r.dayOfWeek ≤ 7) (hhour : r.hour < 24)
    (hw : inWindow30 now r = true) :
    ∑ d ∈ Finset.range 7, ∑ h ∈ Finset.range 24,
      (if (inWindow30 now r && r.dayOfWeek == d + 1 && r.hour == h) = true then 1 else 0)
      = 1 := by
  have hinner : ∀ d : Nat, ∑ h ∈ Finset.range 24,
      (if (inWindow30 now r && r.dayOfWeek == d + 1 && r.hour == h) = true then (1 : Nat)
       else 0) = if (r.dayOfWeek == d + 1) = true then 1 else 0 := by
    intro d
    rw [Finset.sum_eq_single_of_mem r.hour (Finset.mem_range.mpr hhour)]
    · simp [hw]
    · intro b _ hb
      have : (r.hour == b) = false := by simpa using fun hc => hb hc.symm
      simp [this]
  rw [Finset.sum_congr rfl (fun d _ => hinner d)]
  rw [Finset.sum_eq_single_of_mem (r.dayOfWeek - 1)
    (Finset.mem_range.mpr (by omega))]
  · have : r.dayOfWeek - 1 + 1 = r.dayOfWeek := by omega
    rw [this]
    simp
  · intro b _ hb
    have : (r.dayOfWeek == b + 1) = false := by
      simp only [beq_eq_false_iff_ne, ne_eq]
      intro hc
      exact hb (by omega)
    simp [this]

theorem sum_countDH (tbl : List SurveyRow) (now : Nat)
    (hvalid : ∀ r ∈ tbl, 1 ≤ r.dayOfWeek ∧ r.dayOfWeek ≤ 7 ∧ r.hour < 24) :
    ∑ d ∈ Finset.range 7, ∑ h ∈ Finset.range 24, countDH tbl now (d + 1) h =
      (tbl.filter (fun r => inWindow30 now r)).length := by
  induction tbl with
  | nil => simp [countDH]
  | cons r tbl ih =>
    have hr := hvalid r (List.mem_cons_self _ _)
    have hrest : ∀ q ∈ tbl, 1 ≤ q.dayOfWeek ∧ q.dayOfWeek ≤ 7 ∧ q.hour < 24 :=
      fun q hq => hvalid q (List.mem_cons_of_mem _ hq)
    have hsplit : ∀ d h : Nat, countDH (r :: tbl) now (d + 1) h =
        countDH tbl now (d + 1) h +
          (if (inWindow30 now r && r.dayOfWeek == d + 1 && r.hour == h) = true then 1
           else 0) := fun d h => countDH_cons r tbl now (d + 1) h
    calc ∑ d ∈ Finset.range 7, ∑ h ∈ Finset.range 24, countDH (r :: tbl) now (d + 1) h
        = ∑ d ∈ Finset.range 7, ∑ h ∈ Finset.range 24,
            (countDH tbl now (d + 1) h +
              (if (inWindow30 now r && r.dayOfWeek == d + 1 && r.hour == h) = true then 1
               else 0)) := by
          exact Finset.sum_congr rfl (fun d _ => Finset.sum_congr rfl
            (fun h _ => hsplit d h))
      _ = (∑ d ∈ Finset.range 7, ∑ h ∈ Finset.range 24, countDH tbl now (d + 1) h) +
          ∑ d ∈ Finset.range 7, ∑ h ∈ Finset.range 24,
            (if (inWindow30 now r && r.dayOfWeek == d + 1 && r.hour == h) = true then 1
             else 0) := by
          rw [← Finset.sum_add_distrib]
          exact Finset.sum_congr rfl (fun d _ => Finset.sum_add_distrib)
      _ = ((r :: tbl).filter (fun q => inWindow30 now q)).length := by
          rw [ih hrest, List.filter_cons]
          by_cases hw : inWindow30 now r = true
          · rw [indicator_sum r now hr.1 hr.2.1 hr.2.2 hw, if_pos hw]
            simp [Nat.add_comm]
          · have hz : ∀ d h : Nat,
                (if (inWindow30 now r && r.dayOfWeek == d + 1 && r.hour == h) = true
                 then (1 : Nat) else 0) = 0 := by
              intro d h
              simp only [Bool.not_eq_true] at hw
              simp [hw]
            rw [Finset.sum_congr rfl (fun d _ => Finset.sum_congr rfl (fun h _ => hz d h))]
            rw [if_neg (by simpa using hw)]
            simp

/-! ## C7 -/

/-- C7: the heatmap is a 7x24 matrix whose (d, h) cell is exactly the
30-day-window count for SQL day-of-week `d + 1` (0=Sunday..6=Saturday) and
hour `h` — in particular cells with no grouped-query row are 0; `maxCount`
is an upper bound of all cells and is attained (or the matrix is all
zeros); and the sum over all 7x24 cells equals the number of submissions in
the trailing 30-day window.  The hypothesis records MySQL's output ranges
for `DAYOFWEEK` and `HOUR`. -/
theorem c7_heatmap (tbl : List SurveyRow) (now : Nat)
    (hvalid : ∀ r ∈ tbl, 1 ≤ r.dayOfWeek ∧ r.dayOfWeek ≤ 7 ∧ r.hour < 24) :
    (∀ d, d < 7 → ∀ h, h < 24 →
      (heatmapOf tbl now).matrix d h = countDH tbl now (d + 1) h) ∧
    (∀ d, d < 7 → ∀ h, h < 24 →
      (heatmapOf tbl now).matrix d h ≤ (heatmapOf tbl now).maxCount) ∧
    ((heatmapOf tbl now).maxCount = 0 ∨
      ∃ d, d < 7 ∧ ∃ h, h < 24 ∧
        (heatmapOf tbl now).matrix d h = (heatmapOf tbl now).maxCount) ∧
    (∑ d ∈ Finset.range 7, ∑ h ∈ Finset.range 24, (heatmapOf tbl now).matrix d h =
      (tbl.filter (fun r => inWindow30 now r)).length) := by
  refine ⟨fun d hd h hh => heatmap_matrix_eq tbl now d h hd hh, ?_, ?_, ?_⟩
  · intro d hd h hh
    rw [heatmap_matrix_eq tbl now d h hd hh]
    by_cases hc : 0 < countDH tbl now (d + 1) h
    · exact mem_le_foldl_maxStep (groupedQuery tbl now) 0
        (d + 1, h, countDH tbl now (d + 1) h)
        (groupedQuery_mem_of_pos tbl now d h hd hh hc)
    · omega
  · rcases foldl_maxStep_attained (groupedQuery tbl now) 0 with h | ⟨row, hrow, h⟩
    · exact Or.inl h
    · rcases mem_groupedQuery tbl now row hrow with ⟨d, hd, hd1, hh, hcell, hpos⟩
      refine Or.inr ⟨d, hd, row.2.1, hh, ?_⟩
      rw [heatmap_matrix_eq tbl now d row.2.1 hd hh]
      show countDH tbl now (d + 1) row.2.1 = (groupedQuery tbl now).foldl maxStep 0
      rw [← hcell, ← h]
  · rw [Finset.sum_congr rfl (fun d hd => Finset.sum_congr rfl (fun h hh =>
      heatmap_matrix_eq tbl now d h (Finset.mem_range.mp hd) (Finset.mem_range.mp hh)))]
    exact sum_countDH tbl now hvalid

/-- A concrete table for the C7 witness: three in-window rows (two on the
same cell) and one outside the window. -/
def c7table : List SurveyRow :=
  [{ dayOfWeek := 2, hour := 9, createdAt := 5184000000 },
   { dayOfWeek := 2, hour := 9, createdAt := 5184000000 },
   { dayOfWeek := 5, hour := 14, createdAt := 5184000000 },
   { dayOfWeek := 3, hour := 1, createdAt := 0 }]

/-- Witness for C7: the Monday-9am cell of the concrete table equals its
grouped count. -/
theorem c7_heatmap_witness :
    (heatmapOf c7table 5184000000).matrix 1 9 = countDH c7table 5184000000 2 9 :=
  (c7_heatmap c7table 5184000000 (by decide)).1 1 (by decide) 9 (by decide)

end BitSurvey
